import Mathlib

set_option maxRecDepth 4000

/-! Shallow embedding of the drystone/dkrfs repository: two small FUSE
filesystems exposing binary relay channels as one-byte files.
`udinfs.c` drives a UDIN serial relay board (with a relay-state cache and a
post-write consistency check); `dkrfs.c` drives a Denkovi DAEnetIP2 board
over SNMP (no cache, every read re-queries the device).  Pure functions are
translated directly; the global mutable state of each program becomes an
explicit state record threaded through the operations, and the attached
device becomes an oracle record describing how each wire exchange goes.
Every operation also returns the list of commands it put on the wire, so
"no wire traffic" is a provable statement. -/

/-- The `relay_state` enum shared by both sources (`relay_off = 0`,
`relay_on = 1`). -/
inductive relay_state where
  | relay_off : relay_state
  | relay_on : relay_state
deriving DecidableEq

export relay_state (relay_off relay_on)

/-- Digit-run accumulator of C `atoi`/`strtol`: consumes the maximal leading
run of decimal digits, ignoring everything from the first non-digit on. -/
def atoiLoop : List Char → Nat → Nat
  | [], acc => acc
  | c :: cs, acc =>
      if c.isDigit then atoiLoop cs (acc * 10 + (c.toNat - '0'.toNat)) else acc

/-- C `isspace` in the default locale. -/
def c_isspace (c : Char) : Bool :=
  c == ' ' || c == '\t' || c == '\n' || c == '\x0b' || c == '\x0c' || c == '\r'

/-- C `atoi`: skip whitespace, take an optional sign, then a maximal digit
run; 0 when there are no digits.  (Overflow clamping of the C long is not
modelled; the program only decodes small relay bitmasks this way.) -/
def atoi (s : String) : Int :=
  match s.data.dropWhile c_isspace with
  | '-' :: cs => -(atoiLoop cs 0 : Int)
  | '+' :: cs => (atoiLoop cs 0 : Int)
  | cs => (atoiLoop cs 0 : Int)

/-- Truth of `v & (1 << i)` for a C 32-bit two's-complement `int` `v`:
bit `i` of `v` reduced mod 2^32.  For the non-negative values the program
decodes this is plain `Nat.testBit`. -/
def c_bit (v : Int) (i : Nat) : Bool :=
  Nat.testBit (v % (2 ^ 32 : Int)).toNat i

/-- Result of a FUSE `read` handler: `-ENOENT`, `-EIO`, or `n ≥ 0` bytes
copied into the caller's buffer (the returned byte list carries both the
count and the contents). -/
inductive ReadResult where
  | enoent : ReadResult
  | eio : ReadResult
  | bytes : List Char → ReadResult
deriving DecidableEq

/-- Result of a FUSE `write` handler: `-ENOENT` or a byte count. -/
inductive WriteResult where
  | enoent : WriteResult
  | written : Nat → WriteResult
deriving DecidableEq

/-- Result of a FUSE `getattr` handler: `-ENOENT`, the root directory
attributes, or a regular-file attribute block carrying the mtime. -/
inductive GetattrResult where
  | enoent : GetattrResult
  | dirAttr : GetattrResult
  | fileAttr : Int → GetattrResult
deriving DecidableEq

namespace Udinfs

/-- `#define MAX_RELAYS 8` in udinfs.c. -/
def MAX_RELAYS : Nat := 8

/-- One entry of the `_device_info` identity table. -/
structure DeviceInfo where
  id : String
  num_relays : Nat
deriving DecidableEq

/-- The static `_device_info` table (the `NULL` sentinel becomes the end of
the list). -/
def _device_info : List DeviceInfo :=
  [⟨"UDIN-8R 8 x Relay V1.0", 8⟩]

/-- One slot of the `_relays` cache: last-change time and last-known
state. -/
structure Relay where
  mtime : Int
  state : relay_state
deriving DecidableEq

/-- Default used for out-of-range cache reads; the C array is fixed at
`MAX_RELAYS` slots and is zero-initialised, so the default is the zeroed
slot. -/
def rdef : Relay := ⟨0, relay_off⟩

/-- The mutable globals of udinfs.c relevant to the relay core:
`_relays`, `_num_relays`, and whether `_ttyfd` is an open descriptor. -/
structure St where
  relays : List Relay
  num_relays : Nat
  ttyOpen : Bool
deriving DecidableEq

/-- The attached serial device, as an oracle deciding the fate of each
exchange of `_send_command`: whether `_write_device` fully writes the
command, what echo line `_read_device` returns (`none` = read failure or
short read, already stripped of its CR LF), and what response line a second
`_read_device` returns when the caller asked for one. -/
structure SerialDevice where
  openOk : Bool
  writeOk : String → Bool
  echo : String → Option String
  response : String → Option String

/-- `_send_command`: write the command (CR-terminated on the wire), read
back the echo line, reject the exchange unless the echo matches the command
verbatim, then read one response line if the caller passed a buffer.
Returns `none` on any failure, `some resp` on success (`resp = some line`
exactly when a response was requested), together with the wire traffic:
the command token is put on the wire in every case. -/
def _send_command (dev : SerialDevice) (command : String) (wantResponse : Bool) :
    Option (Option String) × List String :=
  (if dev.writeOk command then
     match dev.echo command with
     | none => none
     | some e =>
       if e = command then
         if wantResponse then
           match dev.response command with
           | none => none
           | some r => some (some r)
         else some none
       else none
   else none,
   [command])

/-- `_relay_from_path`: a path names a relay exactly when it is `/r<c>`
with `'1' ≤ c < '1' + _num_relays` and nothing after `c`; the channel index
is `c - '1'`.  The C function returns `-1` for "no relay", modelled as
`none`. -/
def _relay_from_path (num_relays : Nat) (path : List Char) : Option Nat :=
  match path with
  | ['/', 'r', c] =>
      if '1'.toNat ≤ c.toNat ∧ c.toNat < '1'.toNat + num_relays then
        some (c.toNat - '1'.toNat)
      else none
  | _ => none

/-- The relay states seeded from an aggregate `s0` bitmask: the loop
`for (i = 0; i < _num_relays; i++) _relays[i].state = (all_state & (1<<i))`
run over the zeroed `MAX_RELAYS`-slot array. -/
def seedRelays (n : Nat) (all_state : Int) : List Relay :=
  (List.range MAX_RELAYS).map fun i =>
    if i < n then ⟨0, if c_bit all_state i then relay_on else relay_off⟩ else rdef

/-- `_init`: zero the cache and `_num_relays`, open the device, send `?`,
look the response up in `_device_info`; on no match close the port and stop;
on a match set `_num_relays` from the table and seed the cache from an `s0`
query.  The source ignores the result of the `s0` exchange and runs `atoi`
on the response buffer regardless; on a failed exchange that buffer still
holds the identity string from the `?` exchange (its contents are strictly
indeterminate after a short read; the stale value is the deterministic
model of that branch). -/
def _init (dev : SerialDevice) : St × List String :=
  let zero : St := ⟨List.replicate MAX_RELAYS rdef, 0, false⟩
  if dev.openOk then
    match _send_command dev "?" true with
    | (some (some idbuf), t1) =>
        match _device_info.find? (fun e => e.id = idbuf) with
        | some entry =>
            match _send_command dev "s0" true with
            | (r2, t2) =>
                let all_state := atoi (match r2 with
                  | some (some resp) => resp
                  | _ => idbuf)
                (⟨seedRelays entry.num_relays all_state, entry.num_relays, true⟩,
                 t1 ++ t2)
        | none => (zero, t1)
    | (_, t1) => (zero, t1)
  else (zero, [])

/-- The command token built by `_switch_relay`: `n`/`f` followed by the
1-indexed channel digit `'1' + relay_num`. -/
def switchCmd (s : relay_state) (relay_num : Nat) : String :=
  String.mk [if s = relay_on then 'n' else 'f', Char.ofNat ('1'.toNat + relay_num)]

/-- Whether the verification loop body flags channel `i`:
`(_relays[i].state && !state) || (!_relays[i].state && state)` with
`state = all_state & (1 << i)`. -/
def mismatchAt (relays : List Relay) (all_state : Int) (i : Nat) : Bool :=
  let state := c_bit all_state i
  let cached := (relays.getD i rdef).state == relay_on
  (cached && !state) || (!cached && state)

/-- The body of the verification loop of `_switch_relay`, recursing on the
remaining iteration count `num - i` (which bounds the loop: `num` can only
shrink).  Structural recursion on that count keeps the definition
kernel-reducible. -/
def checkLoopAux (relays : List Relay) (all_state : Int) :
    Nat → Nat → Nat → Nat
  | 0, _, num => num
  | k + 1, i, num =>
      if i < num then
        if mismatchAt relays all_state i then
          checkLoopAux relays all_state k (i + 1) 0
        else checkLoopAux relays all_state k (i + 1) num
      else num

/-- The verification loop of `_switch_relay`: `for (i = 0; i < _num_relays;
i++) if (mismatch) _num_relays = 0;` — the loop condition re-reads
`_num_relays`, so the first mismatch zeroes it and ends the loop.  Returns
the final `_num_relays`. -/
def checkLoop (relays : List Relay) (all_state : Int) (i num : Nat) : Nat :=
  checkLoopAux relays all_state (num - i) i num

/-- `_switch_relay`: when the cached state already equals the requested one,
do nothing; otherwise send `n<d>`/`f<d>` (its result is ignored), set the
cached state — and only the state, `mtime` is not touched — then query `s0`
and run the verification loop.  As in `_init`, a failed `s0` exchange leaves
the stale buffer (here the switch command token) to be `atoi`ed. -/
def _switch_relay (dev : SerialDevice) (st : St) (relay_num : Nat) (s : relay_state) :
    St × List String :=
  if (st.relays.getD relay_num rdef).state ≠ s then
    let cmd := switchCmd s relay_num
    let t1 := (_send_command dev cmd false).2
    let relays' := st.relays.set relay_num
      { st.relays.getD relay_num rdef with state := s }
    let r2 := _send_command dev "s0" true
    let all_state := atoi (match r2.1 with
      | some (some resp) => resp
      | _ => cmd)
    ({ st with relays := relays',
               num_relays := checkLoop relays' all_state 0 st.num_relays },
     t1 ++ r2.2)
  else (st, [])

/-- `_getattr`: root directory, else a relay file (size 1, mtime from the
cache slot), else `-ENOENT`. -/
def _getattr (st : St) (path : List Char) : GetattrResult :=
  if path = ['/'] then GetattrResult.dirAttr
  else
    match _relay_from_path st.num_relays path with
    | some channel => GetattrResult.fileAttr (st.relays.getD channel rdef).mtime
    | none => GetattrResult.enoent

/-- `_readdir`: `-ENOENT` off the root; at the root, `.`, `..` and one
`r<d>` name per visible relay. -/
def _readdir (st : St) (path : List Char) : Option (List (List Char)) :=
  if path = ['/'] then
    some ([['.'], ['.', '.']] ++
      (List.range st.num_relays).map fun i => ['r', Char.ofNat ('1'.toNat + i)])
  else none

/-- `_open`: `true` (0) when the path resolves to a relay, `false`
(`-ENOENT`) otherwise. -/
def _open (st : St) (path : List Char) : Bool :=
  (_relay_from_path st.num_relays path).isSome

/-- `_read`: `-ENOENT` when the path resolves to no relay; zero bytes when
`size == 0` or `offset != 0`; otherwise one byte, `'1'` if the cached state
is on, `'0'` if off.  It consults only the cache — the definition takes no
device, so it can produce no wire traffic — and has no `-EIO` path. -/
def _read (st : St) (path : List Char) (size : Nat) (offset : Int) : ReadResult :=
  match _relay_from_path st.num_relays path with
  | none => ReadResult.enoent
  | some channel =>
      if size = 0 ∨ offset ≠ 0 then ReadResult.bytes []
      else ReadResult.bytes
        [if (st.relays.getD channel rdef).state == relay_on then '1' else '0']

/-- `_write`: `-ENOENT` when the path resolves to no relay; a no-op
returning 0 when `size == 0` or `offset != 0`; otherwise switch the relay
on iff the first buffer byte is `'1'` and report the full size written. -/
def _write (dev : SerialDevice) (st : St) (path : List Char) (buf : List Char)
    (size : Nat) (offset : Int) : WriteResult × St × List String :=
  match _relay_from_path st.num_relays path with
  | none => (WriteResult.enoent, st, [])
  | some channel =>
      if size = 0 ∨ offset ≠ 0 then (WriteResult.written 0, st, [])
      else
        let r := _switch_relay dev st channel
          (if buf.headD (Char.ofNat 0) = '1' then relay_on else relay_off)
        (WriteResult.written size, r.1, r.2)

end Udinfs

namespace Dkrfs

/-- `#define MAX_RELAYS 16` in dkrfs.c; also the length of the `_oids`
table. -/
def MAX_RELAYS : Nat := 16

/-- The initialiser of `_num_relays` in dkrfs.c (`= 16`), used when no
`-r`/`relays=` option is given. -/
def default_num_relays : Nat := 16

/-- The `KEY_NUM_RELAYS` arm of `opt_proc`: take the decoded option value
(the C `unsigned int` the `atoi` result is converted to) and clamp it to
`MAX_RELAYS`. -/
def opt_num_relays (v : Nat) : Nat :=
  if v > MAX_RELAYS then MAX_RELAYS else v

/-- `_relay_from_path`: the path must be `/r<digits>` with the first digit
in `'1'..'9'`; `strtol` then consumes the maximal digit run and the `*e ==
'\0'` check demands that it reach the end of the path, so the tail must be
all digits; the value `n` must satisfy `1 ≤ n ≤ _num_relays`, giving index
`n - 1`.  (`strtol`'s clamping at `LONG_MAX` is invisible here: clamped
values are still rejected by `n ≤ _num_relays ≤ 16`.) -/
def _relay_from_path (num_relays : Nat) (path : List Char) : Option Nat :=
  match path with
  | '/' :: 'r' :: c :: rest =>
      if '1'.toNat ≤ c.toNat ∧ c.toNat ≤ '9'.toNat then
        if (c :: rest).all Char.isDigit then
          let n := atoiLoop (c :: rest) 0
          if 1 ≤ n ∧ n ≤ num_relays then some (n - 1) else none
        else none
      else none
  | _ => none

/-- The OID string built for relay `i` by the startup loop:
`sprintf(buf, ".1.3.6.1.4.1.19865.1.2.%d.%d.0", i / 8 + 1, i % 8 + 1)`. -/
def oid_string (i : Nat) : String :=
  ".1.3.6.1.4.1.19865.1.2." ++ toString (i / 8 + 1) ++ "." ++
    toString (i % 8 + 1) ++ ".0"

/-- Split a character list at every `'.'`. -/
def splitDots : List Char → List (List Char)
  | [] => [[]]
  | '.' :: cs => [] :: splitDots cs
  | c :: cs =>
      match splitDots cs with
      | g :: gs => (c :: g) :: gs
      | [] => [[c]]

/-- The numeric components denoted by a dotted OID string, as `read_objid`
parses the strings this program builds: split on dots, drop the empty piece
in front of the leading dot, read each piece as a decimal numeral. -/
def oid_components (s : String) : List Nat :=
  ((splitDots s.data).filter (fun t => t ≠ [])).map fun t => atoiLoop t 0

/-- Modelled from the spec: the remote-variant wire address of channel `i`
is the fixed base identifier `1.3.6.1.4.1.19865.1.2` followed by
`bank.offset.0` with `bank = i/8 + 1` and `offset = i%8 + 1`. -/
def spec_remote_address (i : Nat) : List Nat :=
  [1, 3, 6, 1, 4, 1, 19865, 1, 2] ++ [i / 8 + 1, i % 8 + 1, 0]

/-- One SNMP request as `_set_relay`/`_get_relay` build it: the PDU type
and its single varbind (the relay's OID, plus the written integer for a
set). -/
inductive SnmpCall where
  | getReq : Nat → SnmpCall
  | setReq : Nat → Int → SnmpCall
deriving DecidableEq

/-- The remote agent as an oracle: whether `snmp_synch_response` comes back
`STAT_SUCCESS` with `errstat == SNMP_ERR_NOERROR`, and the integer in the
first varbind of the response. -/
structure SnmpDevice where
  ok : SnmpCall → Bool
  value : SnmpCall → Int

/-- `_snmp_synch`: perform the round trip under the exchange mutex; on
success decode the response integer (`0` = off, anything else = on) when
the caller passed a `relay_state` out-pointer.  Returns the C result
(1 = success, 0 = failure), the decoded state, and the wire traffic. -/
def _snmp_synch (dev : SnmpDevice) (call : SnmpCall) (wantState : Bool) :
    Bool × Option relay_state × List SnmpCall :=
  if dev.ok call then
    (true,
     if wantState then some (if dev.value call = 0 then relay_off else relay_on)
     else none,
     [call])
  else (false, none, [call])

/-- `_set_relay`: a SET PDU carrying integer 1 (on) or 0 (off) at the
relay's OID; no value is decoded. -/
def _set_relay (dev : SnmpDevice) (relay_num : Nat) (s : relay_state) :
    Bool × List SnmpCall :=
  let v : Int := if s = relay_on then 1 else 0
  let r := _snmp_synch dev (SnmpCall.setReq relay_num v) false
  (r.1, r.2.2)

/-- `_get_relay`: a GET PDU with a null varbind at the relay's OID; on
success the decoded state. -/
def _get_relay (dev : SnmpDevice) (relay_num : Nat) :
    Bool × Option relay_state × List SnmpCall :=
  _snmp_synch dev (SnmpCall.getReq relay_num) true

/-- `_read`: `-ENOENT` when the path resolves to no relay; zero bytes when
`size == 0` or `offset != 0`; otherwise one `_get_relay` round trip, giving
one byte on success and `-EIO` on failure. -/
def _read (dev : SnmpDevice) (num_relays : Nat) (path : List Char)
    (size : Nat) (offset : Int) : ReadResult × List SnmpCall :=
  match _relay_from_path num_relays path with
  | none => (ReadResult.enoent, [])
  | some channel =>
      if size = 0 ∨ offset ≠ 0 then (ReadResult.bytes [], [])
      else
        match _get_relay dev channel with
        | (true, some s, tr) =>
            (ReadResult.bytes [if s = relay_on then '1' else '0'], tr)
        | (_, _, tr) => (ReadResult.eio, tr)

/-- `_write`: `-ENOENT` when the path resolves to no relay; a no-op when
`size == 0` or `offset != 0`; otherwise one `_set_relay` round trip whose
result is ignored — the full size is reported written regardless. -/
def _write (dev : SnmpDevice) (num_relays : Nat) (path : List Char)
    (buf : List Char) (size : Nat) (offset : Int) : WriteResult × List SnmpCall :=
  match _relay_from_path num_relays path with
  | none => (WriteResult.enoent, [])
  | some channel =>
      if size = 0 ∨ offset ≠ 0 then (WriteResult.written 0, [])
      else
        let r := _set_relay dev channel
          (if buf.headD (Char.ofNat 0) = '1' then relay_on else relay_off)
        (WriteResult.written size, r.2)

end Dkrfs

namespace Udinfs

/-- A well-behaved demo device: opens, echoes every command verbatim, and
answers `?` with the UDIN-8R identity string and `s0` with the given
bitmask numeral. -/
def demoDev (s0resp : String) : SerialDevice :=
  { openOk := true
    writeOk := fun _ => true
    echo := fun c => some c
    response := fun c =>
      if c = "?" then some "UDIN-8R 8 x Relay V1.0"
      else if c = "s0" then some s0resp else none }

/-- A device that garbles every echo: each `_send_command` exchange fails
at the echo-verification step. -/
def badEchoDev : SerialDevice :=
  { openOk := true
    writeOk := fun _ => true
    echo := fun c => some (c ++ "X")
    response := fun _ => none }

/-- A device on which every `write(2)` fails. -/
def noWriteDev : SerialDevice :=
  { openOk := true
    writeOk := fun _ => false
    echo := fun _ => none
    response := fun _ => none }

/-- A device that identifies itself with a string absent from
`_device_info`. -/
def unknownDev : SerialDevice :=
  { openOk := true
    writeOk := fun _ => true
    echo := fun c => some c
    response := fun c => if c = "?" then some "NOT-A-UDIN" else none }

/-- State after identifying an 8-relay board that reported all channels
off. -/
def st8 : St := ⟨List.replicate 8 rdef, 8, true⟩

/-- Like `st8` but with channel 0 cached on. -/
def st8on0 : St := ⟨⟨0, relay_on⟩ :: List.replicate 7 rdef, 8, true⟩

end Udinfs

namespace Dkrfs

/-- A demo SNMP agent on which every exchange succeeds and every relay
reads back 1. -/
def demoAgent : SnmpDevice := ⟨fun _ => true, fun _ => 1⟩

end Dkrfs

/-! ### Helper lemmas -/

theorem getD_set_self {α : Type} (l : List α) (i : Nat) (a d : α)
    (h : i < l.length) : (l.set i a).getD i d = a := by
  rw [List.getD_eq_getElem _ _ (by simpa using h)]
  exact List.getElem_set_self _

theorem getD_map_range {α : Type} (f : Nat → α) (n i : Nat) (d : α)
    (h : i < n) : (((List.range n).map f).getD i d) = f i := by
  rw [List.getD_eq_getElem _ _ (by simpa using h)]
  simp

namespace Udinfs

theorem checkLoopAux_num_zero (relays : List Relay) (a : Int) (k i : Nat) :
    checkLoopAux relays a k i 0 = 0 := by
  cases k with
  | zero => rfl
  | succ k => simp [checkLoopAux]

theorem checkLoopAux_of_clean (relays : List Relay) (a : Int) :
    ∀ k i num, num - i ≤ k →
      (∀ j, i ≤ j → j < num → mismatchAt relays a j = false) →
      checkLoopAux relays a k i num = num := by
  intro k
  induction k with
  | zero => intro i num _ _; rfl
  | succ k ih =>
      intro i num hk hclean
      by_cases h : i < num
      · have hmi : mismatchAt relays a i = false := hclean i (Nat.le_refl i) h
        have hstep : checkLoopAux relays a (k + 1) i num =
            checkLoopAux relays a k (i + 1) num := by
          simp [checkLoopAux, h, hmi]
        rw [hstep]
        exact ih (i + 1) num (by omega) (fun j hj hjn => hclean j (by omega) hjn)
      · simp [checkLoopAux, h]

theorem checkLoopAux_of_mismatch (relays : List Relay) (a : Int) :
    ∀ k i num, num - i ≤ k →
      (∃ j, i ≤ j ∧ j < num ∧ mismatchAt relays a j = true) →
      checkLoopAux relays a k i num = 0 := by
  intro k
  induction k with
  | zero =>
      intro i num hk hex
      obtain ⟨j, hij, hjn, _⟩ := hex
      exact absurd hjn (by omega)
  | succ k ih =>
      intro i num hk hex
      obtain ⟨j, hij, hjn, hm⟩ := hex
      have h : i < num := by omega
      by_cases hmi : mismatchAt relays a i = true
      · have hstep : checkLoopAux relays a (k + 1) i num =
            checkLoopAux relays a k (i + 1) 0 := by
          simp [checkLoopAux, h, hmi]
        rw [hstep, checkLoopAux_num_zero]
      · have hif : mismatchAt relays a i = false := by
          cases hb : mismatchAt relays a i
          · rfl
          · exact absurd hb hmi
        have hstep : checkLoopAux relays a (k + 1) i num =
            checkLoopAux relays a k (i + 1) num := by
          simp [checkLoopAux, h, hif]
        rw [hstep]
        have hij' : i + 1 ≤ j := by
          rcases Nat.eq_or_lt_of_le hij with he | hl
          · exact absurd (by rw [he]; exact hm) hmi
          · omega
        exact ih (i + 1) num (by omega) ⟨j, hij', hjn, hm⟩

theorem checkLoop_eq_zero_iff (relays : List Relay) (a : Int) (num : Nat)
    (h0 : 0 < num) :
    (checkLoop relays a 0 num = 0 ↔
      ∃ j, j < num ∧ mismatchAt relays a j = true) := by
  unfold checkLoop
  constructor
  · intro h
    by_contra hc
    push_neg at hc
    have hclean : ∀ j, 0 ≤ j → j < num → mismatchAt relays a j = false := by
      intro j _ hj
      cases hb : mismatchAt relays a j
      · rfl
      · exact absurd hb (hc j hj)
    have := checkLoopAux_of_clean relays a (num - 0) 0 num (Nat.le_refl _) hclean
    omega
  · intro hex
    obtain ⟨j, hj, hm⟩ := hex
    exact checkLoopAux_of_mismatch relays a (num - 0) 0 num (Nat.le_refl _)
      ⟨j, Nat.zero_le j, hj, hm⟩

theorem udin_path_index_lt (N : Nat) (path : List Char) (i : Nat)
    (h : _relay_from_path N path = some i) : i < N := by
  unfold _relay_from_path at h
  split at h
  · split at h
    · rename_i c hc
      injection h with h'
      omega
    · exact absurd h (by simp)
  · exact absurd h (by simp)

theorem relay_from_path_zero (path : List Char) :
    _relay_from_path 0 path = none := by
  unfold _relay_from_path
  split
  · rw [if_neg]
    rintro ⟨h1, h2⟩
    omega
  · rfl

theorem send_command_trace (dev : SerialDevice) (cmd : String) (want : Bool) :
    (_send_command dev cmd want).2 = [cmd] := rfl

theorem switch_relay_noop (dev : SerialDevice) (st : St) (ch : Nat)
    (v : relay_state) (h : (st.relays.getD ch rdef).state = v) :
    _switch_relay dev st ch v = (st, []) := by
  unfold _switch_relay
  rw [if_neg (fun hne => hne h)]

theorem switch_relay_sets_cache (dev : SerialDevice) (st : St) (ch : Nat)
    (v : relay_state) (hlen : ch < st.relays.length)
    (hdiff : (st.relays.getD ch rdef).state ≠ v) :
    ((_switch_relay dev st ch v).1.relays.getD ch rdef).state = v := by
  unfold _switch_relay
  rw [if_pos hdiff]
  show ((st.relays.set ch { st.relays.getD ch rdef with state := v }).getD
    ch rdef).state = v
  rw [getD_set_self _ _ _ _ hlen]

theorem switch_relay_eq (dev : SerialDevice) (st : St) (ch : Nat)
    (s : relay_state) (r : String)
    (hdiff : (st.relays.getD ch rdef).state ≠ s)
    (hw : dev.writeOk "s0" = true) (he : dev.echo "s0" = some "s0")
    (hr : dev.response "s0" = some r) :
    _switch_relay dev st ch s =
      ({ st with
          relays := st.relays.set ch { st.relays.getD ch rdef with state := s },
          num_relays :=
            checkLoop (st.relays.set ch { st.relays.getD ch rdef with state := s })
              (atoi r) 0 st.num_relays },
       [switchCmd s ch, "s0"]) := by
  have hcmd : _send_command dev "s0" true = (some (some r), ["s0"]) := by
    simp [_send_command, hw, he, hr]
  unfold _switch_relay
  rw [if_pos hdiff]
  simp [hcmd, send_command_trace]

end Udinfs

namespace Dkrfs

theorem dkr_path_index_lt (N : Nat) (path : List Char) (i : Nat)
    (h : _relay_from_path N path = some i) : i < N := by
  unfold _relay_from_path at h
  split at h
  · split at h
    · split at h
      · dsimp only at h
        split at h
        · rename_i hn
          injection h with h'
          omega
        · exact absurd h (by simp)
      · exact absurd h (by simp)
    · exact absurd h (by simp)
  · exact absurd h (by simp)

end Dkrfs

/-! ### Claim theorems -/

/-- Claim C1: after a `set(channel, value)` that reaches the wire (the
cached state differed, so `n<d>`/`f<d>` was sent), `_switch_relay`
re-queries the aggregate state with `s0` and compares, for every channel
`i < N`, the cached boolean (after the optimistic update) with bit `i` of
the decoded bitmask; the visible channel count becomes 0 exactly when some
channel disagrees, and once `N = 0` every subsequent write is an `-ENOENT`
no-op leaving the state untouched, so `N` stays 0 until
reinitialization. -/
theorem udin_consistency_collapse
    (dev : Udinfs.SerialDevice) (st : Udinfs.St) (ch : Nat) (s : relay_state)
    (r : String)
    (hch : ch < st.num_relays)
    (hdiff : (st.relays.getD ch Udinfs.rdef).state ≠ s)
    (hw : dev.writeOk "s0" = true) (he : dev.echo "s0" = some "s0")
    (hr : dev.response "s0" = some r) :
    ((Udinfs._switch_relay dev st ch s).1.num_relays = 0 ↔
      ∃ i, i < st.num_relays ∧
        Udinfs.mismatchAt
          (st.relays.set ch { st.relays.getD ch Udinfs.rdef with state := s })
          (atoi r) i = true) ∧
    (∀ st2 : Udinfs.St, st2.num_relays = 0 →
      ∀ dev2 path buf size off,
        Udinfs._write dev2 st2 path buf size off = (WriteResult.enoent, st2, [])) := by
  constructor
  · rw [Udinfs.switch_relay_eq dev st ch s r hdiff hw he hr]
    exact Udinfs.checkLoop_eq_zero_iff _ _ _ (by omega)
  · intro st2 h0 dev2 path buf size off
    unfold Udinfs._write
    rw [h0, Udinfs.relay_from_path_zero]

/-- Witness for C1: a well-behaved 8-channel device reports aggregate state
0 right after channel 0 was switched on, so the count collapses to 0; and a
degraded state is left untouched by a further write. -/
theorem udin_consistency_collapse_witness :
    (Udinfs._switch_relay (Udinfs.demoDev "0") Udinfs.st8 0 relay_on).1.num_relays = 0 ∧
    Udinfs._write (Udinfs.demoDev "0") ⟨List.replicate 8 Udinfs.rdef, 0, true⟩
        ['/', 'r', '1'] ['1'] 1 0 =
      (WriteResult.enoent, ⟨List.replicate 8 Udinfs.rdef, 0, true⟩, []) := by
  have h := udin_consistency_collapse (Udinfs.demoDev "0") Udinfs.st8 0 relay_on "0"
    (by decide) (by decide) (by decide) (by decide) (by decide)
  exact ⟨h.1.mpr ⟨0, by decide, by decide⟩, h.2 _ rfl _ _ _ _ _⟩

/-- Claim C2: for every channel index `i` used by the program (`i < 16`,
the table bound), the OID string built at startup denotes exactly the fixed
base identifier `1.3.6.1.4.1.19865.1.2` followed by `bank.offset.0` with
`bank = i/8 + 1` and `offset = i%8 + 1`. -/
theorem dkr_oid_mapping :
    ∀ i, i < 16 →
      Dkrfs.oid_components (Dkrfs.oid_string i) = Dkrfs.spec_remote_address i := by
  decide

/-- Witness for C2 at `i = 8` (bank 2, offset 1). -/
theorem dkr_oid_mapping_witness :
    8 < 16 ∧
      Dkrfs.oid_components (Dkrfs.oid_string 8) = Dkrfs.spec_remote_address 8 :=
  ⟨by decide, dkr_oid_mapping 8 (by decide)⟩

/-- Claim C3 fails in the code: a state-changing write through
`_switch_relay` (here switching channel 0 on against a well-behaved device
whose aggregate state confirms the write, with wire traffic proving the
write reached the device) updates the cached boolean but leaves the
channel's `mtime` at its zero-initialised value — the source never assigns
`_relays[i].mtime`, so the cached last-change time never equals the time of
any write. -/
theorem udin_mtime_never_updated :
    ((Udinfs._switch_relay (Udinfs.demoDev "1") Udinfs.st8 0 relay_on).1.relays.getD
        0 Udinfs.rdef).state = relay_on ∧
    ((Udinfs._switch_relay (Udinfs.demoDev "1") Udinfs.st8 0 relay_on).1.relays.getD
        0 Udinfs.rdef).mtime = 0 ∧
    (Udinfs._switch_relay (Udinfs.demoDev "1") Udinfs.st8 0 relay_on).2 ≠ [] := by
  decide

/-- Counterexample to C4 as stated: against a device that garbles every
echo, the switch command's `_send_command` exchange fails (returns the
error result), yet `_switch_relay` still flips the cached state of channel
0 from off to on — the cache is not left unchanged on protocol failure. -/
theorem udin_protocol_failure_mutates_cache :
    (Udinfs._send_command Udinfs.badEchoDev (Udinfs.switchCmd relay_on 0) false).1 = none ∧
    (Udinfs.st8.relays.getD 0 Udinfs.rdef).state = relay_off ∧
    ((Udinfs._switch_relay Udinfs.badEchoDev Udinfs.st8 0 relay_on).1.relays.getD
        0 Udinfs.rdef).state = relay_on := by
  decide

/-- Claim C4 as amended: protocol failures (failed write, failed or short
read, echo mismatch, missing response) are surfaced by `_send_command` to
its immediate caller as the error result, and `_send_command` itself
mutates no state; but `_switch_relay` ignores that result, so on a
state-changing set the cached state is set to the requested value whether
or not the wire command succeeded. -/
theorem udin_protocol_error_surfaced
    (dev : Udinfs.SerialDevice) (cmd e : String) (want : Bool)
    (st : Udinfs.St) (ch : Nat) (s : relay_state) :
    (dev.writeOk cmd = false → (Udinfs._send_command dev cmd want).1 = none) ∧
    (dev.echo cmd = none → (Udinfs._send_command dev cmd want).1 = none) ∧
    (dev.echo cmd = some e → e ≠ cmd → (Udinfs._send_command dev cmd want).1 = none) ∧
    (dev.writeOk cmd = true → dev.echo cmd = some cmd → dev.response cmd = none →
      (Udinfs._send_command dev cmd true).1 = none) ∧
    (ch < st.relays.length → (st.relays.getD ch Udinfs.rdef).state ≠ s →
      ((Udinfs._switch_relay dev st ch s).1.relays.getD ch Udinfs.rdef).state = s) := by
  refine ⟨?_, ?_, ?_, ?_, Udinfs.switch_relay_sets_cache dev st ch s⟩
  · intro h; simp [Udinfs._send_command, h]
  · intro h; simp [Udinfs._send_command, h]
  · intro h hne; simp [Udinfs._send_command, h, hne]
  · intro h1 h2 h3; simp [Udinfs._send_command, h1, h2, h3]

/-- Witness for the amended C4: a device whose writes fail, a device that
garbles echoes, and a cache mutation despite a failed exchange. -/
theorem udin_protocol_error_surfaced_witness :
    (Udinfs._send_command Udinfs.noWriteDev "s0" false).1 = none ∧
    (Udinfs._send_command Udinfs.badEchoDev "s0" false).1 = none ∧
    ((Udinfs._switch_relay Udinfs.badEchoDev Udinfs.st8 0 relay_on).1.relays.getD
        0 Udinfs.rdef).state = relay_on :=
  ⟨(udin_protocol_error_surfaced Udinfs.noWriteDev "s0" "x" false Udinfs.st8 0
      relay_on).1 rfl,
   (udin_protocol_error_surfaced Udinfs.badEchoDev "s0" "s0X" false Udinfs.st8 0
      relay_on).2.2.1 rfl (by decide),
   (udin_protocol_error_surfaced Udinfs.badEchoDev "s0" "s0X" false Udinfs.st8 0
      relay_on).2.2.2.2 (by decide) (by decide)⟩

/-- Claim C5: when the cached state already equals the requested value,
`_switch_relay` is a no-op with no wire traffic; and after any
`_switch_relay dev st ch v` on a valid channel, an immediately repeated
`_switch_relay` with the same arguments is a no-op producing no wire
traffic (the cache then holds `v`), so only the first call issues wire
commands. -/
theorem udin_set_idempotent :
    (∀ (dev : Udinfs.SerialDevice) (st : Udinfs.St) (ch : Nat) (v : relay_state),
      (st.relays.getD ch Udinfs.rdef).state = v →
      Udinfs._switch_relay dev st ch v = (st, [])) ∧
    (∀ (dev : Udinfs.SerialDevice) (st : Udinfs.St) (ch : Nat) (v : relay_state),
      ch < st.relays.length →
      Udinfs._switch_relay dev (Udinfs._switch_relay dev st ch v).1 ch v =
        ((Udinfs._switch_relay dev st ch v).1, [])) := by
  refine ⟨fun dev st ch v h => Udinfs.switch_relay_noop dev st ch v h, ?_⟩
  intro dev st ch v hlen
  by_cases h : (st.relays.getD ch Udinfs.rdef).state = v
  · rw [Udinfs.switch_relay_noop dev st ch v h]
    exact Udinfs.switch_relay_noop dev st ch v h
  · exact Udinfs.switch_relay_noop dev _ ch v
      (Udinfs.switch_relay_sets_cache dev st ch v hlen h)

/-- Witness for C5: a cache-hit set is a no-op, and a repeated set is a
no-op after the first. -/
theorem udin_set_idempotent_witness :
    Udinfs._switch_relay (Udinfs.demoDev "1") Udinfs.st8on0 0 relay_on =
      (Udinfs.st8on0, []) ∧
    Udinfs._switch_relay (Udinfs.demoDev "1")
        (Udinfs._switch_relay (Udinfs.demoDev "1") Udinfs.st8 0 relay_on).1 0 relay_on =
      ((Udinfs._switch_relay (Udinfs.demoDev "1") Udinfs.st8 0 relay_on).1, []) :=
  ⟨udin_set_idempotent.1 _ _ _ _ (by decide),
   udin_set_idempotent.2 _ _ _ _ (by decide)⟩

/-- Claim C6: `_init` sends `?` and compares the one response line verbatim
against `_device_info`; if no entry matches, the port is closed and the
state is the zeroed one (`N = 0`) with no command after `?`; if the (sole)
entry matches, `N` becomes its channel count 8, the port stays open, and an
`s0` query seeds the cache with the device's reported channel bits instead
of all-off. -/
theorem udin_device_identification
    (dev : Udinfs.SerialDevice) (idstr r : String)
    (hopen : dev.openOk = true)
    (hw1 : dev.writeOk "?" = true) (he1 : dev.echo "?" = some "?")
    (hr1 : dev.response "?" = some idstr) :
    ((∀ e ∈ Udinfs._device_info, e.id ≠ idstr) →
      (Udinfs._init dev).1 = ⟨List.replicate Udinfs.MAX_RELAYS Udinfs.rdef, 0, false⟩ ∧
      (Udinfs._init dev).2 = ["?"]) ∧
    (idstr = "UDIN-8R 8 x Relay V1.0" →
      dev.writeOk "s0" = true → dev.echo "s0" = some "s0" →
      dev.response "s0" = some r →
      (Udinfs._init dev).1.num_relays = 8 ∧
      (Udinfs._init dev).1.ttyOpen = true ∧
      (∀ i, i < 8 → ((Udinfs._init dev).1.relays.getD i Udinfs.rdef).state =
        (if c_bit (atoi r) i then relay_on else relay_off)) ∧
      (Udinfs._init dev).2 = ["?", "s0"]) := by
  have hq : Udinfs._send_command dev "?" true = (some (some idstr), ["?"]) := by
    simp [Udinfs._send_command, hw1, he1, hr1]
  constructor
  · intro hno
    have hfind : Udinfs._device_info.find? (fun e => e.id = idstr) = none := by
      rw [List.find?_eq_none]
      intro e he
      simpa using hno e he
    simp [Udinfs._init, hopen, hq, hfind]
  · intro hid hw2 he2 hr2
    subst hid
    have hs0 : Udinfs._send_command dev "s0" true = (some (some r), ["s0"]) := by
      simp [Udinfs._send_command, hw2, he2, hr2]
    have hfind : Udinfs._device_info.find?
        (fun e => e.id = "UDIN-8R 8 x Relay V1.0") =
        some ⟨"UDIN-8R 8 x Relay V1.0", 8⟩ := by decide
    have heq : Udinfs._init dev =
        (⟨Udinfs.seedRelays 8 (atoi r), 8, true⟩, ["?", "s0"]) := by
      simp [Udinfs._init, hopen, hq, hfind, hs0]
    rw [heq]
    refine ⟨rfl, rfl, ?_, rfl⟩
    intro i hi
    show ((Udinfs.seedRelays 8 (atoi r)).getD i Udinfs.rdef).state = _
    unfold Udinfs.seedRelays
    rw [getD_map_range _ _ _ _ (show i < Udinfs.MAX_RELAYS from hi)]
    simp [hi]

/-- Witness for C6: an unknown identity string leaves the zeroed closed
state with only `?` sent; the known identity with aggregate state 5 yields
8 channels with channel 0 seeded on. -/
theorem udin_device_identification_witness :
    (Udinfs._init Udinfs.unknownDev).1 =
      ⟨List.replicate Udinfs.MAX_RELAYS Udinfs.rdef, 0, false⟩ ∧
    (Udinfs._init Udinfs.unknownDev).2 = ["?"] ∧
    (Udinfs._init (Udinfs.demoDev "5")).1.num_relays = 8 ∧
    ((Udinfs._init (Udinfs.demoDev "5")).1.relays.getD 0 Udinfs.rdef).state =
      relay_on ∧
    (Udinfs._init (Udinfs.demoDev "5")).2 = ["?", "s0"] := by
  have h1 := (udin_device_identification Udinfs.unknownDev "NOT-A-UDIN" ""
    rfl rfl rfl (by decide)).1 (by decide)
  have h2 := (udin_device_identification (Udinfs.demoDev "5")
    "UDIN-8R 8 x Relay V1.0" "5" rfl rfl rfl (by decide)).2 rfl rfl rfl
    (by decide)
  refine ⟨h1.1, h1.2, h2.1, ?_, h2.2.2.2⟩
  rw [h2.2.2.1 0 (by decide)]
  decide

/-- Claim C7: in both variants a path that does not resolve to a channel
index in `0..N-1` makes `read` and `write` report `-ENOENT` with no
transport call (empty wire trace; the serial `read` takes no device at
all), and the resolver can only produce indices below `N`, so the bounds
check precedes any wire interaction. -/
theorem boundary_no_transport :
    (∀ (N : Nat) (path : List Char) (i : Nat),
      Udinfs._relay_from_path N path = some i → i < N) ∧
    (∀ (st : Udinfs.St) (path : List Char) (size : Nat) (off : Int),
      Udinfs._relay_from_path st.num_relays path = none →
      Udinfs._read st path size off = ReadResult.enoent) ∧
    (∀ (dev : Udinfs.SerialDevice) (st : Udinfs.St) (path buf : List Char)
        (size : Nat) (off : Int),
      Udinfs._relay_from_path st.num_relays path = none →
      Udinfs._write dev st path buf size off = (WriteResult.enoent, st, [])) ∧
    (∀ (N : Nat) (path : List Char) (i : Nat),
      Dkrfs._relay_from_path N path = some i → i < N) ∧
    (∀ (dev : Dkrfs.SnmpDevice) (N : Nat) (path : List Char) (size : Nat)
        (off : Int),
      Dkrfs._relay_from_path N path = none →
      Dkrfs._read dev N path size off = (ReadResult.enoent, [])) ∧
    (∀ (dev : Dkrfs.SnmpDevice) (N : Nat) (path buf : List Char) (size : Nat)
        (off : Int),
      Dkrfs._relay_from_path N path = none →
      Dkrfs._write dev N path buf size off = (WriteResult.enoent, [])) := by
  refine ⟨Udinfs.udin_path_index_lt, ?_, ?_, Dkrfs.dkr_path_index_lt, ?_, ?_⟩
  · intro st path size off h
    unfold Udinfs._read
    rw [h]
  · intro dev st path buf size off h
    unfold Udinfs._write
    rw [h]
  · intro dev N path size off h
    unfold Dkrfs._read
    rw [h]
  · intro dev N path buf size off h
    unfold Dkrfs._write
    rw [h]

/-- Witness for C7: `/r9` on the 8-channel serial state and `/r17`, `/r0`
on a 16-channel remote configuration are rejected without traffic, and
resolving `/r3` (serial) and `/r10` (remote) stays below `N`. -/
theorem boundary_no_transport_witness :
    Udinfs._read Udinfs.st8 ['/', 'r', '9'] 1 0 = ReadResult.enoent ∧
    Udinfs._write (Udinfs.demoDev "0") Udinfs.st8 ['/', 'r', '9'] ['1'] 1 0 =
      (WriteResult.enoent, Udinfs.st8, []) ∧
    Dkrfs._read Dkrfs.demoAgent 16 ['/', 'r', '1', '7'] 1 0 =
      (ReadResult.enoent, []) ∧
    Dkrfs._write Dkrfs.demoAgent 16 ['/', 'r', '0'] ['1'] 1 0 =
      (WriteResult.enoent, []) ∧
    2 < 8 ∧ 9 < 16 :=
  ⟨boundary_no_transport.2.1 Udinfs.st8 _ 1 0 (by decide),
   boundary_no_transport.2.2.1 _ Udinfs.st8 _ ['1'] 1 0 (by decide),
   boundary_no_transport.2.2.2.2.1 _ 16 _ 1 0 (by decide),
   boundary_no_transport.2.2.2.2.2 _ 16 _ ['1'] 1 0 (by decide),
   boundary_no_transport.1 8 ['/', 'r', '3'] 2 (by decide),
   boundary_no_transport.2.2.2.1 16 ['/', 'r', '1', '0'] 9 (by decide)⟩

/-- Claim C8: the remote variant clamps the configured relay count at
`MAX_RELAYS = 16` (any larger option value becomes 16, and the compiled-in
default is 16), so every channel index below the configured count is a
valid index into the 16-entry `_oids` table. -/
theorem dkr_num_relays_clamped :
    (∀ v, Dkrfs.opt_num_relays v ≤ Dkrfs.MAX_RELAYS) ∧
    Dkrfs.default_num_relays ≤ Dkrfs.MAX_RELAYS ∧
    (∀ v i, i < Dkrfs.opt_num_relays v → i < 16) := by
  refine ⟨?_, by decide, ?_⟩
  · intro v
    unfold Dkrfs.opt_num_relays
    split <;> omega
  · intro v i h
    unfold Dkrfs.opt_num_relays Dkrfs.MAX_RELAYS at h
    split at h <;> omega

/-- Witness for C8: `-r 100` clamps to 16, so index 15 stays in the
table. -/
theorem dkr_num_relays_clamped_witness :
    15 < Dkrfs.opt_num_relays 100 ∧ 15 < 16 :=
  ⟨by decide, dkr_num_relays_clamped.2.2 100 15 (by decide)⟩

/-- Counterexample to C9 as stated: a read of a valid channel (`/r1`, the
resolver yields channel 0) with `size = 0` succeeds but returns zero bytes,
not exactly one byte. -/
theorem udin_read_zero_size :
    Udinfs._relay_from_path Udinfs.st8.num_relays ['/', 'r', '1'] = some 0 ∧
    Udinfs._read Udinfs.st8 ['/', 'r', '1'] 0 0 = ReadResult.bytes [] ∧
    ReadResult.bytes [] ≠ ReadResult.bytes ['0'] ∧
    ReadResult.bytes [] ≠ ReadResult.bytes ['1'] := by
  decide

/-- Claim C9 as amended: a read of a valid channel never returns the
I/O-error result and consults only the cache (`Udinfs._read` takes no
device, so no wire traffic is possible); it returns exactly one byte —
`'1'` if the cached state is on, `'0'` otherwise — whenever `size ≥ 1` and
`offset = 0`, and zero bytes when `size = 0` or `offset ≠ 0`. -/
theorem udin_read_cache_only
    (st : Udinfs.St) (path : List Char) (size : Nat) (off : Int) (ch : Nat)
    (h : Udinfs._relay_from_path st.num_relays path = some ch) :
    Udinfs._read st path size off ≠ ReadResult.eio ∧
    (size ≠ 0 → off = 0 →
      Udinfs._read st path size off = ReadResult.bytes
        [if (st.relays.getD ch Udinfs.rdef).state == relay_on then '1' else '0']) ∧
    ((size = 0 ∨ off ≠ 0) → Udinfs._read st path size off = ReadResult.bytes []) := by
  have hmain : Udinfs._read st path size off =
      if size = 0 ∨ off ≠ 0 then ReadResult.bytes []
      else ReadResult.bytes
        [if (st.relays.getD ch Udinfs.rdef).state == relay_on then '1' else '0'] := by
    unfold Udinfs._read
    rw [h]
  refine ⟨?_, ?_, ?_⟩
  · rw [hmain]
    split <;> simp
  · intro hs ho
    have hnc : ¬(size = 0 ∨ off ≠ 0) := by
      rintro (h1 | h2)
      · exact hs h1
      · exact h2 ho
    rw [hmain, if_neg hnc]
  · intro hcond
    rw [hmain, if_pos hcond]

/-- Witness for C9 (amended): reading `/r1` with size 1 and offset 0 on the
all-off 8-channel state yields the single byte `'0'`. -/
theorem udin_read_cache_only_witness :
    Udinfs._read Udinfs.st8 ['/', 'r', '1'] 1 0 = ReadResult.bytes
      [if (Udinfs.st8.relays.getD 0 Udinfs.rdef).state == relay_on then '1' else '0'] :=
  (udin_read_cache_only Udinfs.st8 ['/', 'r', '1'] 1 0 0 (by decide)).2.1
    (by decide) rfl

/-- Claim C10: with `N = 0` (failed identification or consistency
collapse), no path resolves to a channel, per-channel `getattr`, `open`,
`read` and `write` all report `-ENOENT`, the root directory lists only `.`
and `..`, writes leave the state untouched with no wire traffic (reads,
`getattr`, `readdir` and `open` take no device at all), so the degraded
state persists until reinitialization. -/
theorem udin_degraded_invariant (st : Udinfs.St) (h : st.num_relays = 0) :
    (∀ path, Udinfs._relay_from_path st.num_relays path = none) ∧
    (∀ path, path ≠ ['/'] → Udinfs._getattr st path = GetattrResult.enoent) ∧
    (∀ path, Udinfs._open st path = false) ∧
    (∀ path size off, Udinfs._read st path size off = ReadResult.enoent) ∧
    (∀ dev path buf size off,
      Udinfs._write dev st path buf size off = (WriteResult.enoent, st, [])) ∧
    Udinfs._readdir st ['/'] = some [['.'], ['.', '.']] := by
  have hres : ∀ path, Udinfs._relay_from_path st.num_relays path = none := by
    intro path
    rw [h, Udinfs.relay_from_path_zero]
  refine ⟨hres, ?_, ?_, ?_, ?_, ?_⟩
  · intro path hp
    unfold Udinfs._getattr
    rw [if_neg hp, hres]
  · intro path
    unfold Udinfs._open
    rw [hres]
    rfl
  · intro path size off
    unfold Udinfs._read
    rw [hres]
  · intro dev path buf size off
    unfold Udinfs._write
    rw [hres]
  · unfold Udinfs._readdir
    rw [if_pos rfl, h]
    rfl

/-- Witness for C10 on the concrete degraded state. -/
theorem udin_degraded_invariant_witness :
    Udinfs._getattr ⟨List.replicate 8 Udinfs.rdef, 0, false⟩ ['/', 'r', '1'] =
      GetattrResult.enoent ∧
    Udinfs._readdir ⟨List.replicate 8 Udinfs.rdef, 0, false⟩ ['/'] =
      some [['.'], ['.', '.']] :=
  ⟨(udin_degraded_invariant _ rfl).2.1 _ (by decide),
   (udin_degraded_invariant _ rfl).2.2.2.2.2⟩
